import Mathlib

/-!
Verification development for the patchright-mcp session and targeting runtime
(`src/index.ts`). JavaScript `Map`s are embedded as insertion-ordered
association lists, strings as Lean `String`s, and raw driver `Page` objects as
opaque `Nat` identities. Driver and filesystem effects (context launches,
trace flushes, directory removal) appear as explicit oracle parameters, and
thrown JS `Error`s become `Except McpError`.
-/

namespace PatchrightMCP

/-- Lookup in an insertion-ordered association list (JS `Map.get`). -/
def lookupA [DecidableEq κ] : List (κ × α) → κ → Option α
  | [], _ => none
  | (k1, v) :: rest, k => if k1 = k then some v else lookupA rest k

/-- Insert or update in an association list, keeping the position of an
existing key (JS `Map.set`). -/
def insertA [DecidableEq κ] : List (κ × α) → κ → α → List (κ × α)
  | [], k, v => [(k, v)]
  | (k1, v1) :: rest, k, v =>
    if k1 = k then (k, v) :: rest else (k1, v1) :: insertA rest k v

/-- Remove a key from an association list (JS `Map.delete`). -/
def eraseA [DecidableEq κ] : List (κ × α) → κ → List (κ × α)
  | [], _ => []
  | (k1, v1) :: rest, k =>
    if k1 = k then eraseA rest k else (k1, v1) :: eraseA rest k

theorem lookupA_insertA_self [DecidableEq κ] (l : List (κ × α)) (k : κ) (v : α) :
    lookupA (insertA l k v) k = some v := by
  induction l with
  | nil => simp [insertA, lookupA]
  | cons hd tl ih =>
    obtain ⟨k1, v1⟩ := hd
    by_cases h : k1 = k
    · simp [insertA, lookupA, h]
    · simp [insertA, lookupA, h, ih]

theorem lookupA_insertA_ne [DecidableEq κ] (l : List (κ × α)) (k q : κ) (v : α)
    (h : q ≠ k) : lookupA (insertA l k v) q = lookupA l q := by
  have hkq : ¬ k = q := fun hh => h hh.symm
  induction l with
  | nil => simp [insertA, lookupA, hkq]
  | cons hd tl ih =>
    obtain ⟨k1, v1⟩ := hd
    by_cases hk : k1 = k
    · subst hk
      simp [insertA, lookupA, hkq]
    · simp [insertA, lookupA, hk, ih]

theorem lookupA_eraseA_self [DecidableEq κ] (l : List (κ × α)) (k : κ) :
    lookupA (eraseA l k) k = none := by
  induction l with
  | nil => simp [eraseA, lookupA]
  | cons hd tl ih =>
    obtain ⟨k1, v1⟩ := hd
    by_cases h : k1 = k
    · simp [eraseA, h, ih]
    · simp [eraseA, lookupA, h, ih]

theorem lookupA_eraseA_ne [DecidableEq κ] (l : List (κ × α)) (k q : κ)
    (h : q ≠ k) : lookupA (eraseA l k) q = lookupA l q := by
  have hkq : ¬ k = q := fun hh => h hh.symm
  induction l with
  | nil => simp [eraseA]
  | cons hd tl ih =>
    obtain ⟨k1, v1⟩ := hd
    by_cases hk : k1 = k
    · subst hk
      simp [eraseA, lookupA, hkq, ih]
    · simp [eraseA, lookupA, hk, ih]

/-- Trim on both ends, the `String.prototype.trim()` of the source. -/
def jsTrim (s : String) : String :=
  String.mk (((s.toList.dropWhile Char.isWhitespace).reverse.dropWhile Char.isWhitespace).reverse)

/-- Trim at the end only, the `String.prototype.trimEnd()` of the source. -/
def jsTrimEnd (s : String) : String :=
  String.mk ((s.toList.reverse.dropWhile Char.isWhitespace).reverse)

/-- JS regex class `\w`: ASCII letters, digits and underscore. -/
def isWordChar (c : Char) : Bool :=
  ('a' ≤ c && c ≤ 'z') || ('A' ≤ c && c ≤ 'Z') || ('0' ≤ c && c ≤ '9') || c == '_'

/-- Characters kept by `sanitizeProfileName` (the class `[\w.-]`). -/
def keepChar (c : Char) : Bool :=
  isWordChar c || c == '.' || c == '-'

/-- Replace each maximal run of characters outside `[\w.-]` by a single
underscore, the `replace(/[^\w.-]+/g, "_")` of `sanitizeProfileName`.
The flag records whether the previous character was part of a bad run. -/
def collapseBadAux : Bool → List Char → List Char
  | _, [] => []
  | inBad, c :: rest =>
    if keepChar c then c :: collapseBadAux false rest
    else if inBad then collapseBadAux true rest
    else '_' :: collapseBadAux true rest

/-- Strip all leading and trailing underscores, the
`replace(/^_+|_+$/g, "")` of `sanitizeProfileName`. -/
def stripEdgeUnderscores (l : List Char) : List Char :=
  ((l.dropWhile (· == '_')).reverse.dropWhile (· == '_')).reverse

/-- Embedding of `sanitizeProfileName` from src/index.ts: trim (empty falls
back to "default"), collapse bad runs to `_`, strip edge underscores, take at
most 64 characters, and fall back to "default" when empty. -/
def sanitizeProfileName (name : String) : String :=
  let trimmed := if (jsTrim name).isEmpty then "default" else jsTrim name
  let cleaned := String.mk (stripEdgeUnderscores (collapseBadAux false trimmed.toList))
  let sliced := String.mk (cleaned.toList.take 64)
  if sliced.isEmpty then "default" else sliced

/-- Embedding of `profileBrowserId` from src/index.ts. -/
def profileBrowserId (profile : String) : String :=
  "profile:" ++ sanitizeProfileName profile

/-- Embedding of `pushBounded` from src/index.ts: push, then splice off the
front down to `max` elements when the bound is exceeded (the source binds
`arr ++ [item]` to the local `a` before the length test). -/
def pushBounded (arr : List α) (item : α) (max : Nat) : List α :=
  if (arr ++ [item]).length > max then
    (arr ++ [item]).drop ((arr ++ [item]).length - max)
  else arr ++ [item]

/-- The most recent `n` elements of a list, in order. -/
def lastN (n : Nat) (l : List α) : List α := l.drop (l.length - n)

theorem pushBounded_eq_lastN (arr : List α) (item : α) (max : Nat) :
    pushBounded arr item max = lastN max (arr ++ [item]) := by
  unfold pushBounded lastN
  by_cases h : (arr ++ [item]).length > max
  · rw [if_pos h]
  · rw [if_neg h]
    have h0 : (arr ++ [item]).length - max = 0 := by omega
    rw [h0, List.drop_zero]

theorem length_lastN (n : Nat) (l : List α) : (lastN n l).length ≤ n := by
  unfold lastN
  simp only [List.length_drop]
  omega

theorem lastN_lastN_append (n : Nat) (l ms : List α) :
    lastN n (lastN n l ++ ms) = lastN n (l ++ ms) := by
  unfold lastN
  have hk : l.length - n ≤ l.length := Nat.sub_le _ _
  rw [← List.drop_append_of_le_length hk]
  rw [List.drop_drop]
  congr 1
  simp only [List.length_drop, List.length_append]
  omega

theorem foldl_pushBounded (n : Nat) (msgs : List α) :
    ∀ init : List α, init.length ≤ n →
      List.foldl (fun a m => pushBounded a m n) init msgs = lastN n (init ++ msgs) := by
  induction msgs with
  | nil =>
    intro init h
    unfold lastN
    have h0 : init.length - n = 0 := by omega
    simp [h0]
  | cons m ms ih =>
    intro init h
    simp only [List.foldl_cons]
    rw [pushBounded_eq_lastN]
    rw [ih _ (length_lastN n (init ++ [m]))]
    rw [lastN_lastN_append]
    simp only [List.append_assoc, List.singleton_append]

/-- Error taxonomy for the JS `throw new Error(...)` sites of src/index.ts.
Each constructor stands for one thrown message: `sessionNotFound` for
"Browser instance not found: id", `pageNotFound` for "Page not found: id",
`noPagesOpen` for "No pages found for browser instance: id",
`headlessMismatch` for the relaunch-refusal message of `getOrCreateSession`,
`targetRequired` for the "Provide target ..." message of
`resolveActionLocator`, `tracingAlreadyStarted` / `tracingNotStarted` for the
tracing tools, and `traceFlushFailed` for a failing `tracing.stop` flush. -/
inductive McpError where
  | sessionNotFound (browserId : String)
  | pageNotFound (pageId : String)
  | noPagesOpen (browserId : String)
  | headlessMismatch (current requested : Bool)
  | targetRequired
  | tracingAlreadyStarted
  | tracingNotStarted
  | traceFlushFailed
deriving DecidableEq, Repr

/-- Direction tag of a network ring-buffer event. -/
inductive NetType where
  | request
  | response
deriving DecidableEq, Repr

/-- One entry of a page's network ring buffer, from the `page.on("request")`
and `page.on("response")` handlers of `registerPage`. -/
structure NetworkEvent where
  ts : Nat
  type : NetType
  url : String
  method : Option String
  status : Option Nat
  resourceType : Option String
deriving DecidableEq, Repr

/-- One entry of a page's download ledger, from the `page.on("download")`
handler of `registerPage`. -/
structure DownloadEntry where
  suggestedFilename : String
  outputFile : String
  finished : Bool
deriving DecidableEq, Repr

/-- Source location of a console message as reported by the driver. -/
structure ConsoleLoc where
  url : String
  lineNumber : Nat
  columnNumber : Nat
deriving DecidableEq, Repr

/-- A console message as reported by the driver (`msg.type()`, `msg.text()`,
`msg.location()`). -/
structure ConsoleMsg where
  type : String
  text : String
  location : Option ConsoleLoc
deriving DecidableEq, Repr

/-- Console line formatting of the `page.on("console")` handler: the location
suffix is appended only when a location with a truthy (non-empty) url is
available. -/
def formatConsoleLine (m : ConsoleMsg) : String :=
  let location :=
    match m.location with
    | some loc =>
      if loc.url.isEmpty then ""
      else " @ " ++ loc.url ++ ":" ++ toString loc.lineNumber ++ ":" ++ toString loc.columnNumber
    | none => ""
  "[" ++ m.type ++ "] " ++ m.text ++ location

/-- Embedding of the `BrowserInstance` record of src/index.ts. Raw driver
pages are opaque `Nat` identities; `pages` maps pageId to the raw page and
`pageIdByPage` is the inverse map, both in insertion order. -/
structure BrowserInstance where
  pages : List (String × Nat)
  pageIdByPage : List (Nat × String)
  activePageId : String
  consoleMessages : List (String × List String)
  recentConsoleMessages : List (String × List String)
  downloads : List (String × List DownloadEntry)
  networkEvents : List (String × List NetworkEvent)
  headless : Bool
  isPersistent : Bool
  profile : Option String
  userDataDir : Option String
deriving DecidableEq, Repr

/-- The process-wide `browserInstances` map. -/
abbrev Registry := List (String × BrowserInstance)

/-- Embedding of `registerPage` from src/index.ts: idempotent on an already
registered raw page; otherwise records the fresh pageId (`randomUUID()` is
abstracted as the `freshId` argument), makes the page active, and seeds the
four per-page buffers when absent. Event wiring is modelled by the separate
`handle*` functions below. -/
def registerPage (inst : BrowserInstance) (rawPage : Nat) (freshId : String) :
    String × BrowserInstance :=
  match lookupA inst.pageIdByPage rawPage with
  | some existing => (existing, inst)
  | none =>
    (freshId,
      { inst with
        pageIdByPage := insertA inst.pageIdByPage rawPage freshId
        pages := insertA inst.pages freshId rawPage
        activePageId := freshId
        consoleMessages :=
          if (lookupA inst.consoleMessages freshId).isSome then inst.consoleMessages
          else insertA inst.consoleMessages freshId []
        recentConsoleMessages :=
          if (lookupA inst.recentConsoleMessages freshId).isSome then inst.recentConsoleMessages
          else insertA inst.recentConsoleMessages freshId []
        downloads :=
          if (lookupA inst.downloads freshId).isSome then inst.downloads
          else insertA inst.downloads freshId []
        networkEvents :=
          if (lookupA inst.networkEvents freshId).isSome then inst.networkEvents
          else insertA inst.networkEvents freshId [] })

/-- Embedding of the `page.on("close")` handler installed by `registerPage`:
drops the page from `pages`, `consoleMessages`, `networkEvents` and
`pageIdByPage` (the source does not touch `recentConsoleMessages` or
`downloads` here), then reassigns the active pointer from the first remaining
page when the closed page was active. -/
def handlePageClose (inst : BrowserInstance) (pageId : String) (rawPage : Nat) :
    BrowserInstance :=
  let pages := eraseA inst.pages pageId
  { inst with
    pages := pages
    consoleMessages := eraseA inst.consoleMessages pageId
    networkEvents := eraseA inst.networkEvents pageId
    pageIdByPage := eraseA inst.pageIdByPage rawPage
    activePageId :=
      if inst.activePageId = pageId then
        match pages.head? with
        | some (nextId, _) => nextId
        | none => ""
      else inst.activePageId }

/-- Embedding of the `page.on("console")` handler installed by `registerPage`:
appends the formatted line to the page's console ring buffer (bound 200) and,
when present, to the recent-console buffer of the same bound. -/
def handleConsole (inst : BrowserInstance) (pageId : String) (m : ConsoleMsg) :
    BrowserInstance :=
  match lookupA inst.consoleMessages pageId with
  | none => inst
  | some arr =>
    let line := formatConsoleLine m
    { inst with
      consoleMessages := insertA inst.consoleMessages pageId (pushBounded arr line 200)
      recentConsoleMessages :=
        match lookupA inst.recentConsoleMessages pageId with
        | some recent =>
          insertA inst.recentConsoleMessages pageId (pushBounded recent line 200)
        | none => inst.recentConsoleMessages }

/-- Embedding of the `page.on("request")` handler installed by `registerPage`
(bound 500). -/
def handleRequest (inst : BrowserInstance) (pageId : String)
    (ts : Nat) (url method resourceType : String) : BrowserInstance :=
  match lookupA inst.networkEvents pageId with
  | none => inst
  | some arr =>
    let ev : NetworkEvent :=
      { ts := ts, type := .request, url := url, method := some method,
        status := none, resourceType := some resourceType }
    { inst with networkEvents := insertA inst.networkEvents pageId (pushBounded arr ev 500) }

/-- Embedding of the `page.on("response")` handler installed by
`registerPage` (bound 500). -/
def handleResponse (inst : BrowserInstance) (pageId : String)
    (ts : Nat) (url : String) (status : Nat) : BrowserInstance :=
  match lookupA inst.networkEvents pageId with
  | none => inst
  | some arr =>
    let ev : NetworkEvent :=
      { ts := ts, type := .response, url := url, method := none,
        status := some status, resourceType := none }
    { inst with networkEvents := insertA inst.networkEvents pageId (pushBounded arr ev 500) }

/-- Root artifact directory, `path.join(os.tmpdir(), "patchright-mcp")`;
`tmpdir` abstracts `os.tmpdir()`. -/
def TEMP_DIR (tmpdir : String) : String := tmpdir ++ "/patchright-mcp"

/-- The profiles root under the temp directory. -/
def PROFILES_DIR (tmpdir : String) : String := TEMP_DIR tmpdir ++ "/profiles"

/-- The downloads root under the temp directory. -/
def DOWNLOADS_DIR (tmpdir : String) : String := TEMP_DIR tmpdir ++ "/downloads"

/-- The traces root under the temp directory. -/
def TRACES_DIR (tmpdir : String) : String := TEMP_DIR tmpdir ++ "/traces"

/-- The options record taken by `getOrCreateSession`. -/
structure SessionOptions where
  browserId : Option String
  profile : String
  isolated : Bool
  headless : Bool
  launchArgs : List String
deriving DecidableEq, Repr

/-- Effect oracle for one `getOrCreateSession` call: `isolatedId` stands for
the `randomUUID()` drawn for an isolated session, `ctxPages` for the raw
pages a freshly launched persistent context already holds, `ctxPageIds` for
the uuids assigned to them, and `newPageRaw`/`newPageId` for the page opened
by `context.newPage()` when needed. -/
structure LaunchOracle where
  isolatedId : String
  ctxPages : List Nat
  ctxPageIds : List String
  newPageRaw : Nat
  newPageId : String
deriving DecidableEq, Repr

/-- The `options.browserId?.trim() || undefined` normalization of
`getOrCreateSession`. -/
def requestedBrowserId (o : SessionOptions) : Option String :=
  match o.browserId with
  | some s => if (jsTrim s).isEmpty then none else some (jsTrim s)
  | none => none

/-- The `profileKey` computation of `getOrCreateSession`: a requested id with
a "profile:" prefix contributes its sanitized remainder, otherwise the
sanitized `profile` option is used. -/
def profileKeyOf (o : SessionOptions) : String :=
  match requestedBrowserId o with
  | some r =>
    if r.startsWith "profile:" then sanitizeProfileName (r.drop 8)
    else sanitizeProfileName o.profile
  | none => sanitizeProfileName o.profile

/-- The `resolvedBrowserId` computation of `getOrCreateSession`. -/
def resolveBrowserId (o : SessionOptions) (isolatedId : String) : String :=
  match requestedBrowserId o with
  | some r => if r.startsWith "profile:" then profileBrowserId (profileKeyOf o) else r
  | none => if o.isolated then isolatedId else profileBrowserId (profileKeyOf o)

/-- A `BrowserInstance` as first constructed in either creation branch of
`getOrCreateSession`, before any page registration. -/
def mkEmptyInstance (headless isPersistent : Bool) (profile userDataDir : Option String) :
    BrowserInstance :=
  { pages := [], pageIdByPage := [], activePageId := ""
    consoleMessages := [], recentConsoleMessages := []
    downloads := [], networkEvents := []
    headless := headless, isPersistent := isPersistent
    profile := profile, userDataDir := userDataDir }

/-- Registration of a list of raw pages with their fresh ids, the
`for (const p of context.pages()) registerPage(instance, p)` loop. -/
def registerPages (inst : BrowserInstance) : List (Nat × String) → BrowserInstance
  | [] => inst
  | (raw, fid) :: rest => registerPages (registerPage inst raw fid).2 rest

/-- The persistent-context creation branch of `getOrCreateSession`: the
profile directory is ensured under the profiles root, the already-open
context pages are registered, and one new page is opened when the context
has none. -/
def createPersistentInstance (o : SessionOptions) (profileKey : String)
    (orc : LaunchOracle) (tmpdir : String) : BrowserInstance :=
  let userDataDir := PROFILES_DIR tmpdir ++ "/" ++ profileKey
  let inst := mkEmptyInstance o.headless true (some profileKey) (some userDataDir)
  let inst := registerPages inst (orc.ctxPages.zip orc.ctxPageIds)
  if orc.ctxPages.isEmpty then (registerPage inst orc.newPageRaw orc.newPageId).2 else inst

/-- The ephemeral creation branch of `getOrCreateSession`: a fresh context
with exactly one new page. -/
def createEphemeralInstance (o : SessionOptions) (orc : LaunchOracle) : BrowserInstance :=
  let inst := mkEmptyInstance o.headless false none none
  (registerPage inst orc.newPageRaw orc.newPageId).2

/-- Embedding of `getOrCreateSession` from src/index.ts. The returned pair is
the final registry together with either the thrown headless-mismatch error or
`(browserId, instance, wasReused, contextsOpened)`, where `contextsOpened`
counts the browsing contexts launched by this call (1 in either creation
branch, 0 on reuse). -/
def getOrCreateSession (reg : Registry) (o : SessionOptions) (orc : LaunchOracle)
    (tmpdir : String) :
    Registry × Except McpError (String × BrowserInstance × Bool × Nat) :=
  let resolvedId := resolveBrowserId o orc.isolatedId
  match lookupA reg resolvedId with
  | some inst =>
    if inst.headless ≠ o.headless then
      (reg, .error (.headlessMismatch inst.headless o.headless))
    else (reg, .ok (resolvedId, inst, true, 0))
  | none =>
    let inst :=
      if !o.isolated && resolvedId.startsWith "profile:" then
        createPersistentInstance o (profileKeyOf o) orc tmpdir
      else createEphemeralInstance o orc
    let reg1 := insertA reg resolvedId inst
    if inst.headless ≠ o.headless then
      (reg1, .error (.headlessMismatch inst.headless o.headless))
    else (reg1, .ok (resolvedId, inst, false, 1))

/-- Embedding of `getPage` from src/index.ts. An explicit `pageId` is looked
up and made active; with no `pageId` the active page is used, falling back to
the first open page (which then becomes active); the returned registry
reflects the active-pointer mutation. -/
def getPage (reg : Registry) (browserId : String) (pageId? : Option String) :
    Except McpError (String × Nat × BrowserInstance × Registry) :=
  match lookupA reg browserId with
  | none => .error (.sessionNotFound browserId)
  | some inst =>
    match pageId? with
    | some pid =>
      match lookupA inst.pages pid with
      | none => .error (.pageNotFound pid)
      | some raw =>
        let inst1 := { inst with activePageId := pid }
        .ok (pid, raw, inst1, insertA reg browserId inst1)
    | none =>
      match lookupA inst.pages inst.activePageId with
      | some raw => .ok (inst.activePageId, raw, inst, reg)
      | none =>
        match inst.pages.head? with
        | some (firstId, firstRaw) =>
          let inst1 := { inst with activePageId := firstId }
          .ok (firstId, firstRaw, inst1, insertA reg browserId inst1)
        | none => .error (.noPagesOpen browserId)

/-- Boolean prefix test on character lists. -/
def prefixOfL : List Char → List Char → Bool
  | [], _ => true
  | _ :: _, [] => false
  | a :: as, b :: bs => a == b && prefixOfL as bs

/-- Boolean contiguous-sublist test on character lists. -/
def infixOfL (needle : List Char) : List Char → Bool
  | [] => needle.isEmpty
  | c :: rest => prefixOfL needle (c :: rest) || infixOfL needle rest

/-- Substring test, the `String.prototype.includes` of the source. -/
def containsSub (s needle : String) : Bool :=
  infixOfL needle.toList s.toList

/-- Embedding of the `browser_console_messages` tool body: resolve the page,
slice the most recent `limit` lines, and, when `clear` is set, truncate the
page's buffer in place (`buffer.length = 0`; a missing buffer falls back to
a fresh empty array, so clearing it does not touch the map). -/
def consoleMessagesOp (reg : Registry) (browserId? pageId? : Option String)
    (limit : Int) (clear : Bool) : Except McpError (List String × Registry) :=
  let bid := match browserId? with | some b => b | none => profileBrowserId "default"
  match getPage reg bid pageId? with
  | .error e => .error e
  | .ok (pid, _raw, inst, reg1) =>
    let bufOpt := lookupA inst.consoleMessages pid
    let buffer := bufOpt.getD []
    let start : Int := max 0 ((buffer.length : Int) - limit)
    let items := buffer.drop start.toNat
    let reg2 :=
      if clear then
        match bufOpt with
        | some _ =>
          insertA reg1 bid { inst with consoleMessages := insertA inst.consoleMessages pid [] }
        | none => reg1
      else reg1
    .ok (items, reg2)

/-- The `include` option of `browser_network_requests`. -/
inductive IncludeKind where
  | requests
  | responses
  | both
deriving DecidableEq, Repr

/-- The event filter of `browser_network_requests`: a falsy (absent or empty)
`urlContains` disables the substring check, and `include` compares the event
direction against `include.slice(0, -1)`. -/
def networkEventKeep (include0 : IncludeKind) (urlContains? : Option String)
    (e : NetworkEvent) : Bool :=
  let urlOk :=
    match urlContains? with
    | some u => if u.isEmpty then true else containsSub e.url u
    | none => true
  urlOk &&
    (match include0 with
     | .both => true
     | .requests => e.type == .request
     | .responses => e.type == .response)

/-- Embedding of the `browser_network_requests` tool body: resolve the page,
filter the buffer, slice the most recent `limit` events of the filtered list,
and, when `clear` is set, truncate the page's whole buffer in place. -/
def networkRequestsOp (reg : Registry) (browserId? pageId? : Option String)
    (limit : Int) (clear : Bool) (include0 : IncludeKind) (urlContains? : Option String) :
    Except McpError (List NetworkEvent × Registry) :=
  let bid := match browserId? with | some b => b | none => profileBrowserId "default"
  match getPage reg bid pageId? with
  | .error e => .error e
  | .ok (pid, _raw, inst, reg1) =>
    let bufOpt := lookupA inst.networkEvents pid
    let buffer := bufOpt.getD []
    let filtered := buffer.filter (networkEventKeep include0 urlContains?)
    let start : Int := max 0 ((filtered.length : Int) - limit)
    let items := filtered.drop start.toNat
    let reg2 :=
      if clear then
        match bufOpt with
        | some _ =>
          insertA reg1 bid { inst with networkEvents := insertA inst.networkEvents pid [] }
        | none => reg1
      else reg1
    .ok (items, reg2)

/-- The structured `ActionTarget` union of src/index.ts. -/
inductive ActionTarget where
  | refTarget (element ref : String)
  | selectorTarget (selector : String)
deriving DecidableEq, Repr

/-- The outcome of target resolution. Locator construction against the driver
is abstracted to a tag carrying the arguments handed to `refLocator`
respectively `page.locator`. -/
inductive ResolvedLoc where
  | viaRef (element ref : String)
  | viaSelector (selector : String)
deriving DecidableEq, Repr

/-- The parameter bundle consumed by `resolveActionLocator`: the structured
`target` plus the three legacy top-level fields. -/
structure ActionParams where
  target : Option ActionTarget
  element : Option String
  ref : Option String
  selector : Option String
deriving DecidableEq, Repr

/-- JS truthiness of an optional string: present and non-empty. -/
def truthyS : Option String → Bool
  | some s => !s.isEmpty
  | none => false

/-- Embedding of `resolveActionLocator` from src/index.ts. `required?` is the
`options?.required` argument, treated as true unless literally `false`. -/
def resolveActionLocator (p : ActionParams) (required? : Option Bool) :
    Except McpError (Option ResolvedLoc) :=
  let required := required? ≠ some false
  match p.target with
  | some (.refTarget e r) => .ok (some (.viaRef e r))
  | some (.selectorTarget s) => .ok (some (.viaSelector s))
  | none =>
    let usingRef := truthyS p.ref && truthyS p.element
    let usingSelector :=
      match p.selector with
      | some s => !(jsTrim s).isEmpty
      | none => false
    if usingRef then .ok (some (.viaRef (p.element.getD "") (p.ref.getD "")))
    else if usingSelector then .ok (some (.viaSelector (p.selector.getD "")))
    else if required then .error .targetRequired
    else .ok none

/-- One `tracingSessions` ledger entry. -/
structure TraceState where
  zipPath : String
  startedAt : Nat
deriving DecidableEq, Repr

/-- The `tracingSessions` map. -/
abbrev TraceLedger := List (String × TraceState)

/-- Embedding of the `browser_start_tracing` tool body: fails when the
session is unknown or a trace is already recording; otherwise reserves
`trace-<now>-<uuid8>.zip` under the traces root and records it in the
ledger (`now` abstracts `Date.now()` and `uuid8` the uuid slice). -/
def startTracingOp (reg : Registry) (ledger : TraceLedger) (browserId? : Option String)
    (tmpdir : String) (now : Nat) (uuid8 : String) :
    Except McpError (String × TraceLedger) :=
  let bid := match browserId? with | some b => b | none => profileBrowserId "default"
  match lookupA reg bid with
  | none => .error (.sessionNotFound bid)
  | some _ =>
    if (lookupA ledger bid).isSome then .error .tracingAlreadyStarted
    else
      let zipPath := TRACES_DIR tmpdir ++ "/trace-" ++ toString now ++ "-" ++ uuid8 ++ ".zip"
      .ok (zipPath, insertA ledger bid { zipPath := zipPath, startedAt := now })

/-- Embedding of the `browser_stop_tracing` tool body: fails when the session
is unknown or no trace is recording; otherwise flushes to the reserved path
(`flushOk` abstracts whether `tracing.stop` succeeds) and deletes the ledger
entry in a `finally`, so the entry is gone in both outcomes. -/
def stopTracingOp (reg : Registry) (ledger : TraceLedger) (browserId? : Option String)
    (flushOk : Bool) : TraceLedger × Except McpError String :=
  let bid := match browserId? with | some b => b | none => profileBrowserId "default"
  match lookupA reg bid with
  | none => (ledger, .error (.sessionNotFound bid))
  | some _ =>
    match lookupA ledger bid with
    | none => (ledger, .error .tracingNotStarted)
    | some st =>
      let ledger1 := eraseA ledger bid
      if flushOk then (ledger1, .ok st.zipPath) else (ledger1, .error .traceFlushFailed)

/-- On-disk artifact state: the file lists of the three cleanup-managed
directories. -/
structure ArtifactDirs where
  profiles : List String
  downloads : List String
  traces : List String
deriving DecidableEq, Repr

/-- The option flags of the `browser_cleanup` tool. -/
structure CleanupFlags where
  profiles : Bool
  downloads : Bool
  traces : Bool
  closeBrowsers : Bool
deriving DecidableEq, Repr

/-- Embedding of the `browser_cleanup` tool body. `closeFail` is the oracle
saying whether closing a given session's context throws; either way the
failure is swallowed and the session is removed from the registry, so the
oracle does not influence the result. `rmProfiles`/`rmDownloads`/`rmTraces`
are `none` when the delete-and-recreate of that directory succeeds and
`some msg` when it throws with the given detail; a failed category keeps its
directory state and reports the failure line instead of aborting. Returns the
final registry, tracing ledger, directory state and report lines. -/
def cleanupOp (reg : Registry) (ledger : TraceLedger) (dirs : ArtifactDirs)
    (f : CleanupFlags) (closeFail : String → Bool)
    (rmProfiles rmDownloads rmTraces : Option String) (tmpdir : String) :
    Registry × TraceLedger × ArtifactDirs × List String :=
  let closed :=
    if f.closeBrowsers then
      let _ := reg.map (fun p => closeFail p.1)
      ([], ([] : TraceLedger), ["Closed browsers: " ++ toString reg.length])
    else (reg, ledger, [])
  let reg1 := closed.1
  let ledger1 := closed.2.1
  let lines1 := closed.2.2
  let profilesStep :=
    if f.profiles then
      match rmProfiles with
      | none => (([] : List String), lines1 ++ ["Profiles cleaned: " ++ PROFILES_DIR tmpdir])
      | some e => (dirs.profiles, lines1 ++ ["Profiles cleanup failed: " ++ e])
    else (dirs.profiles, lines1)
  let downloadsStep :=
    if f.downloads then
      match rmDownloads with
      | none => (([] : List String), profilesStep.2 ++ ["Downloads cleaned: " ++ DOWNLOADS_DIR tmpdir])
      | some e => (dirs.downloads, profilesStep.2 ++ ["Downloads cleanup failed: " ++ e])
    else (dirs.downloads, profilesStep.2)
  let tracesStep :=
    if f.traces then
      match rmTraces with
      | none =>
        (([] : List String), ([] : TraceLedger), downloadsStep.2 ++ ["Traces cleaned: " ++ TRACES_DIR tmpdir])
      | some e => (dirs.traces, ledger1, downloadsStep.2 ++ ["Traces cleanup failed: " ++ e])
    else (dirs.traces, ledger1, downloadsStep.2)
  let lines4 :=
    if !f.profiles && !f.downloads && !f.traces then
      tracesStep.2.2 ++ ["Nothing to clean (all flags false)."]
    else tracesStep.2.2
  (reg1,
   tracesStep.2.1,
   { profiles := profilesStep.1, downloads := downloadsStep.1, traces := tracesStep.1 },
   lines4)

/-- The `page` section input of `pwRespond`. -/
structure PageInfo where
  url : String
  title : Option String
deriving DecidableEq, Repr

/-- The `snapshot` section input of `pwRespond`. -/
structure SnapshotInfo where
  text : String
  language : Option String
deriving DecidableEq, Repr

/-- One image attachment handed to `pwRespond`; `data` stands for the
base64-encoded buffer (`img.data.toString("base64")`). -/
structure ImagePart where
  mimeType : String
  data : String
deriving DecidableEq, Repr

/-- The `ToolContent` union of src/index.ts. -/
inductive ToolContent where
  | text (t : String)
  | image (data mimeType : String)
deriving DecidableEq, Repr

/-- The `ToolResult` record of src/index.ts; an absent `isError` is `false`. -/
structure ToolResult where
  content : List ToolContent
  isError : Bool
deriving DecidableEq, Repr

/-- Embedding of `renderSection` from src/index.ts. -/
def renderSection (title body : String) : String :=
  let trimmed := jsTrim body
  if trimmed.isEmpty then "" else "### " ++ title ++ "\n" ++ trimmed ++ "\n"

/-- Embedding of `renderCodeSection` from src/index.ts. -/
def renderCodeSection (code : String) : String :=
  let trimmed := jsTrim code
  if trimmed.isEmpty then ""
  else renderSection "Ran Playwright code" ("```js\n" ++ trimmed ++ "\n```")

/-- Embedding of `renderPageStateSection` from src/index.ts. -/
def renderPageStateSection (page : PageInfo) (snapshot : Option SnapshotInfo) : String :=
  let lines :=
    ["- Page URL: " ++ page.url, "- Page Title: " ++ page.title.getD ""] ++
      (match snapshot with
       | some s =>
         let lang := s.language.getD "yaml"
         ["- Page Snapshot:", "```" ++ lang, jsTrimEnd s.text, "```"]
       | none => [])
  renderSection "Page state" (String.intercalate "\n" lines)

/-- The parameter record of `pwRespond`. -/
structure RespondParams where
  result : Option String := none
  code : Option String := none
  tabs : Option String := none
  consoleMessages : Option String := none
  downloads : Option String := none
  modalState : Option String := none
  page : Option PageInfo := none
  snapshot : Option SnapshotInfo := none
  images : List ImagePart := []
  isError : Bool := false
deriving DecidableEq, Repr

/-- The `parts` array of `pwRespond`: each section is pushed only when its
parameter is truthy, in the fixed source order. -/
def assembleParts (p : RespondParams) : List String :=
  (if truthyS p.result then [renderSection "Result" (p.result.getD "")] else []) ++
  (if truthyS p.code then [renderCodeSection (p.code.getD "")] else []) ++
  (if truthyS p.tabs then [renderSection "Open tabs" (p.tabs.getD "")] else []) ++
  (if truthyS p.modalState then [renderSection "Modal state" (p.modalState.getD "")] else []) ++
  (if truthyS p.consoleMessages then
    [renderSection "New console messages" (p.consoleMessages.getD "")] else []) ++
  (if truthyS p.downloads then [renderSection "Downloads" (p.downloads.getD "")] else []) ++
  (match p.page with
   | some pg => [renderPageStateSection pg p.snapshot]
   | none => [])

/-- The joined text of `pwRespond`:
`parts.filter(Boolean).join("\n").trimEnd() || "### Result\n"`. -/
def assembleText (p : RespondParams) : String :=
  let joined := jsTrimEnd (String.intercalate "\n" ((assembleParts p).filter (fun s => !s.isEmpty)))
  if joined.isEmpty then "### Result\n" else joined

/-- Replacement of every leftmost non-overlapping occurrence of `sep` by
`rep`, the semantics of JS `split(sep).join(rep)` for a non-empty separator.
The fuel argument makes the recursion structural; it is called with the
input length, which the remaining input never exceeds. -/
def replaceAllFuel (sep rep : List Char) : Nat → List Char → List Char
  | _, [] => []
  | 0, l => l
  | fuel + 1, c :: rest =>
    if prefixOfL sep (c :: rest) && !sep.isEmpty then
      rep ++ replaceAllFuel sep rep fuel (List.drop (sep.length - 1) rest)
    else c :: replaceAllFuel sep rep fuel rest

/-- Replace every leftmost non-overlapping occurrence of `sep` by `rep`. -/
def replaceAllL (sep rep l : List Char) : List Char :=
  replaceAllFuel sep rep l.length l

/-- One redaction step of `pwRespond`:
`item.text.split(secretValue).join("<secret>" + name + "</secret>")`, skipped
for a falsy secret value; split-then-join with a non-empty separator is the
leftmost non-overlapping replace-all. -/
def redactEntry (t : String) (kv : String × String) : String :=
  if kv.2.isEmpty then t
  else String.mk (replaceAllL kv.2.toList ("<secret>" ++ kv.1 ++ "</secret>").toList t.toList)

/-- The full redaction loop over the configured secrets, in table order. -/
def redactText (secrets : List (String × String)) (t : String) : String :=
  secrets.foldl redactEntry t

/-- Redaction of one content item: only text items are rewritten. -/
def redactItem (secrets : List (String × String)) : ToolContent → ToolContent
  | .text t => .text (redactText secrets t)
  | c => c

/-- Embedding of `pwRespond` from src/index.ts: assemble the single text
section followed by the image attachments, then, when a secrets table is
configured, redact every text item. -/
def pwRespond (secrets : Option (List (String × String))) (p : RespondParams) : ToolResult :=
  let content : List ToolContent :=
    .text (assembleText p) :: p.images.map (fun i => .image i.data i.mimeType)
  let content :=
    match secrets with
    | some es => content.map (redactItem es)
    | none => content
  { content := content, isError := p.isError }

/-- The first text item of a tool result. -/
def firstText (r : ToolResult) : Option String :=
  match r.content with
  | .text t :: _ => some t
  | _ => none

/-- Folding a sequence of console events through the console handler of one
page, the repeated firing of `page.on("console")`. -/
def consoleFold (inst : BrowserInstance) (pageId : String) (msgs : List ConsoleMsg) :
    BrowserInstance :=
  msgs.foldl (fun i m => handleConsole i pageId m) inst

theorem lookupA_consoleFold (pid : String) :
    ∀ (msgs : List ConsoleMsg) (inst : BrowserInstance) (b : List String),
      lookupA inst.consoleMessages pid = some b →
      lookupA (consoleFold inst pid msgs).consoleMessages pid =
        some (List.foldl (fun a m => pushBounded a (formatConsoleLine m) 200) b msgs) := by
  intro msgs
  induction msgs with
  | nil =>
    intro inst b h
    simpa [consoleFold] using h
  | cons m ms ih =>
    intro inst b h
    have hstep : (handleConsole inst pid m).consoleMessages =
        insertA inst.consoleMessages pid (pushBounded b (formatConsoleLine m) 200) := by
      simp [handleConsole, h]
    have hlook : lookupA (handleConsole inst pid m).consoleMessages pid =
        some (pushBounded b (formatConsoleLine m) 200) := by
      rw [hstep]
      exact lookupA_insertA_self _ _ _
    have hfold : consoleFold inst pid (m :: ms) = consoleFold (handleConsole inst pid m) pid ms := by
      simp [consoleFold]
    rw [hfold, ih _ _ hlook]
    simp

/-- Sample console message used by concrete witnesses. -/
def msgSample : ConsoleMsg := { type := "log", text := "m", location := none }

/-- Sample download ledger entry used by concrete witnesses. -/
def dlSample : DownloadEntry :=
  { suggestedFilename := "a.bin", outputFile := "/tmp/patchright-mcp/downloads/a-1.bin",
    finished := false }

/-- Sample network event used by concrete witnesses. -/
def evSample : NetworkEvent :=
  { ts := 1, type := .request, url := "https://example.com/a", method := some "GET",
    status := none, resourceType := some "document" }

/-- A concrete session with two registered pages and populated buffers, used
by concrete witnesses. -/
def instTwoPages : BrowserInstance :=
  { pages := [("p1", 1), ("p2", 2)]
    pageIdByPage := [(1, "p1"), (2, "p2")]
    activePageId := "p1"
    consoleMessages := [("p1", ["c1"]), ("p2", ["c2"])]
    recentConsoleMessages := [("p1", ["r1"]), ("p2", ["r2"])]
    downloads := [("p1", [dlSample]), ("p2", [])]
    networkEvents := [("p1", [evSample]), ("p2", [])]
    headless := false
    isPersistent := true
    profile := some "default"
    userDataDir := some "/tmp/patchright-mcp/profiles/default" }

/-- C4: after more than 200 console appends to a page whose console ring
buffer started empty, the buffer holds exactly the most recent 200 formatted
lines in append order; a plain fold of `pushBounded` from empty always yields
the most recent 200 in order; and a bounded append never grows a buffer of at
most 200 lines beyond 200. -/
theorem C4_console_ring_buffer :
    (∀ (msgs : List ConsoleMsg) (inst : BrowserInstance) (pid : String),
       lookupA inst.consoleMessages pid = some [] →
       msgs.length > 200 →
       lookupA (consoleFold inst pid msgs).consoleMessages pid =
         some (lastN 200 (msgs.map formatConsoleLine)) ∧
       (lastN 200 (msgs.map formatConsoleLine)).length = 200) ∧
    (∀ msgs : List String,
       List.foldl (fun a m => pushBounded a m 200) [] msgs = lastN 200 msgs) ∧
    (∀ (arr : List String) (item : String), arr.length ≤ 200 →
       (pushBounded arr item 200).length ≤ 200) := by
  refine ⟨?_, ?_, ?_⟩
  · intro msgs inst pid h hlen
    have h1 := lookupA_consoleFold pid msgs inst [] h
    have h2 : List.foldl (fun a m => pushBounded a (formatConsoleLine m) 200) [] msgs =
        lastN 200 (msgs.map formatConsoleLine) := by
      rw [← List.foldl_map (f := formatConsoleLine)
        (g := fun (a : List String) (s : String) => pushBounded a s 200)]
      have := foldl_pushBounded 200 (msgs.map formatConsoleLine) [] (by simp)
      simpa using this
    refine ⟨by rw [h1, h2], ?_⟩
    unfold lastN
    simp only [List.length_drop, List.length_map]
    omega
  · intro msgs
    have := foldl_pushBounded 200 msgs [] (by simp)
    simpa using this
  · intro arr item h
    rw [pushBounded_eq_lastN]
    exact length_lastN _ _

/-- Witness for C4 at a concrete input: 201 appends to the fresh page p1. -/
theorem C4_console_ring_buffer_witness :
    lookupA ({ instTwoPages with consoleMessages := [("p1", [])] } : BrowserInstance).consoleMessages
        "p1" = some [] ∧
    (List.replicate 201 msgSample).length > 200 ∧
    lookupA (consoleFold { instTwoPages with consoleMessages := [("p1", [])] } "p1"
        (List.replicate 201 msgSample)).consoleMessages "p1" =
      some (lastN 200 ((List.replicate 201 msgSample).map formatConsoleLine)) :=
  ⟨by decide, by simp only [List.length_replicate]; decide,
    (C4_console_ring_buffer.1 (List.replicate 201 msgSample)
      { instTwoPages with consoleMessages := [("p1", [])] } "p1" (by decide)
      (by simp only [List.length_replicate]; decide)).1⟩

/-- The secrets table of the spec scenario: value "sk-123" under name
"openai". -/
def secretsScenario : List (String × String) := [("openai", "sk-123")]

/-- C1 counterexample: with secret "sk-123" configured under name "openai",
a result text containing "sk-123" comes back with the tag-style placeholder
`<secret>openai</secret>`, not the claimed `<secret:openai>`; the output
contains no occurrence of "<secret:openai>" at all (while the secret value
itself is indeed gone). -/
theorem C1_counterexample :
    firstText (pwRespond (some secretsScenario) { result := some "token sk-123 end" }) =
      some "### Result\ntoken <secret>openai</secret> end" ∧
    containsSub "token sk-123 end" "sk-123" = true ∧
    containsSub
      ((firstText (pwRespond (some secretsScenario) { result := some "token sk-123 end" })).getD "")
      "<secret:openai>" = false ∧
    containsSub
      ((firstText (pwRespond (some secretsScenario) { result := some "token sk-123 end" })).getD "")
      "sk-123" = false := by
  refine ⟨?_, ?_, ?_, ?_⟩ <;> decide

/-- C1 amended: before a result is returned, every text item has each
configured secret value replaced by the placeholder `<secret>name</secret>`
(not `<secret:name>`): a result produced with a secrets table equals the
result produced without one with the split/join replacement mapped over its
text items, image items and the error flag untouched; in the scenario, a
result text with two occurrences of "sk-123" under name "openai" comes back
with `<secret>openai</secret>` in both places. -/
theorem C1_amended :
    (∀ (es : List (String × String)) (p : RespondParams),
       (pwRespond (some es) p).content = ((pwRespond none p).content).map (redactItem es) ∧
       (pwRespond (some es) p).isError = p.isError ∧
       firstText (pwRespond (some es) p) = some (redactText es (assembleText p))) ∧
    firstText (pwRespond (some secretsScenario) { result := some "a sk-123 b sk-123" }) =
      some "### Result\na <secret>openai</secret> b <secret>openai</secret>" := by
  refine ⟨?_, by decide⟩
  intro es p
  refine ⟨rfl, rfl, ?_⟩
  simp [pwRespond, firstText, redactItem]

/-- C3 counterexample: closing page p1 leaves its recent-console buffer and
its download ledger in the session maps (only the console and network ring
buffers are deleted), contradicting the claim that all four per-page buffers
are discarded. -/
theorem C3_counterexample :
    lookupA (handlePageClose instTwoPages "p1" 1).recentConsoleMessages "p1" = some ["r1"] ∧
    lookupA (handlePageClose instTwoPages "p1" 1).downloads "p1" = some [dlSample] ∧
    lookupA (handlePageClose instTwoPages "p1" 1).consoleMessages "p1" = none ∧
    lookupA (handlePageClose instTwoPages "p1" 1).networkEvents "p1" = none := by
  refine ⟨?_, ?_, ?_, ?_⟩ <;> decide

/-- C3 amended: when a page closes, its entry is removed from the page map,
the console ring buffer and the network ring buffer, while its
recent-console buffer and download ledger entries are retained in the
session; if the closed page was active, the active pointer moves to the
first remaining page, or is cleared to "" when none remain; the state of any
other page is unchanged. -/
theorem C3_amended :
    ∀ (inst : BrowserInstance) (pid : String) (raw : Nat) (q : String),
      q ≠ pid →
      lookupA (handlePageClose inst pid raw).pages pid = none ∧
      lookupA (handlePageClose inst pid raw).consoleMessages pid = none ∧
      lookupA (handlePageClose inst pid raw).networkEvents pid = none ∧
      (handlePageClose inst pid raw).recentConsoleMessages = inst.recentConsoleMessages ∧
      (handlePageClose inst pid raw).downloads = inst.downloads ∧
      (inst.activePageId = pid →
        (handlePageClose inst pid raw).activePageId =
          (match (eraseA inst.pages pid).head? with
           | some kp => kp.1
           | none => "")) ∧
      (inst.activePageId ≠ pid →
        (handlePageClose inst pid raw).activePageId = inst.activePageId) ∧
      lookupA (handlePageClose inst pid raw).pages q = lookupA inst.pages q ∧
      lookupA (handlePageClose inst pid raw).consoleMessages q = lookupA inst.consoleMessages q ∧
      lookupA (handlePageClose inst pid raw).networkEvents q = lookupA inst.networkEvents q := by
  intro inst pid raw q hq
  refine ⟨?_, ?_, ?_, rfl, rfl, ?_, ?_, ?_, ?_, ?_⟩
  · simp [handlePageClose, lookupA_eraseA_self]
  · simp [handlePageClose, lookupA_eraseA_self]
  · simp [handlePageClose, lookupA_eraseA_self]
  · intro ha
    cases hh : (eraseA inst.pages pid).head? with
    | none => simp [handlePageClose, ha, hh]
    | some kp =>
      obtain ⟨a, b⟩ := kp
      simp [handlePageClose, ha, hh]
  · intro ha
    simp [handlePageClose, ha]
  · simp [handlePageClose, lookupA_eraseA_ne _ _ _ hq]
  · simp [handlePageClose, lookupA_eraseA_ne _ _ _ hq]
  · simp [handlePageClose, lookupA_eraseA_ne _ _ _ hq]

/-- Witness for C3 amended: closing the active page p1 of the concrete
two-page session moves the active pointer to p2 and leaves p2's state
intact. -/
theorem C3_amended_witness :
    ("p2" : String) ≠ "p1" ∧
    (lookupA (handlePageClose instTwoPages "p1" 1).pages "p1" = none ∧
     lookupA (handlePageClose instTwoPages "p1" 1).consoleMessages "p1" = none ∧
     lookupA (handlePageClose instTwoPages "p1" 1).networkEvents "p1" = none ∧
     (handlePageClose instTwoPages "p1" 1).recentConsoleMessages =
       instTwoPages.recentConsoleMessages ∧
     (handlePageClose instTwoPages "p1" 1).downloads = instTwoPages.downloads ∧
     (instTwoPages.activePageId = "p1" →
       (handlePageClose instTwoPages "p1" 1).activePageId =
         (match (eraseA instTwoPages.pages "p1").head? with
          | some kp => kp.1
          | none => "")) ∧
     (instTwoPages.activePageId ≠ "p1" →
       (handlePageClose instTwoPages "p1" 1).activePageId = instTwoPages.activePageId) ∧
     lookupA (handlePageClose instTwoPages "p1" 1).pages "p2" = lookupA instTwoPages.pages "p2" ∧
     lookupA (handlePageClose instTwoPages "p1" 1).consoleMessages "p2" =
       lookupA instTwoPages.consoleMessages "p2" ∧
     lookupA (handlePageClose instTwoPages "p1" 1).networkEvents "p2" =
       lookupA instTwoPages.networkEvents "p2") :=
  ⟨by decide, C3_amended instTwoPages "p1" 1 "p2" (by decide)⟩

/-- C5: when a `getOrCreate` request resolves to the id of a live session,
a differing headless flag fails with the headless-mismatch error and leaves
the registry (hence the existing session) untouched, while an agreeing flag
returns the existing session. -/
theorem C5_headless_mismatch :
    ∀ (reg : Registry) (o : SessionOptions) (orc : LaunchOracle) (tmpdir : String)
      (inst : BrowserInstance),
      lookupA reg (resolveBrowserId o orc.isolatedId) = some inst →
      (inst.headless ≠ o.headless →
        getOrCreateSession reg o orc tmpdir =
          (reg, .error (.headlessMismatch inst.headless o.headless))) ∧
      (inst.headless = o.headless →
        getOrCreateSession reg o orc tmpdir =
          (reg, .ok (resolveBrowserId o orc.isolatedId, inst, true, 0))) := by
  intro reg o orc tmpdir inst h
  constructor
  · intro hne
    simp [getOrCreateSession, h, hne]
  · intro heq
    simp [getOrCreateSession, h, heq]

/-- A session options record asking for the default profile. -/
def optsDefault (headless : Bool) : SessionOptions :=
  { browserId := none, profile := "default", isolated := false,
    headless := headless, launchArgs := [] }

/-- A launch oracle for concrete witnesses. -/
def orcSample : LaunchOracle :=
  { isolatedId := "11111111-2222-3333-4444-555555555555", ctxPages := [],
    ctxPageIds := [], newPageRaw := 7, newPageId := "p7" }

/-- Witness for C5: the default-profile registry entry was created with
headless=false, so requesting headless=true fails with the mismatch error
and requesting headless=false returns the live session. -/
theorem C5_headless_mismatch_witness :
    lookupA [("profile:default", instTwoPages)]
        (resolveBrowserId (optsDefault true) orcSample.isolatedId) = some instTwoPages ∧
    instTwoPages.headless ≠ (optsDefault true).headless ∧
    getOrCreateSession [("profile:default", instTwoPages)] (optsDefault true) orcSample "/tmp" =
      ([("profile:default", instTwoPages)],
       .error (.headlessMismatch instTwoPages.headless (optsDefault true).headless)) :=
  ⟨by decide, by decide,
    (C5_headless_mismatch [("profile:default", instTwoPages)] (optsDefault true) orcSample
      "/tmp" instTwoPages (by decide)).1 (by decide)⟩

/-- The `usingRef` local of `resolveActionLocator`:
`Boolean(params.ref && params.element)`. -/
def usingRefB (p : ActionParams) : Bool :=
  truthyS p.ref && truthyS p.element

/-- The `usingSelector` local of `resolveActionLocator`:
`Boolean(params.selector && params.selector.trim())`. -/
def usingSelectorB (p : ActionParams) : Bool :=
  match p.selector with
  | some s => !(jsTrim s).isEmpty
  | none => false

/-- C6: target resolution consults its inputs in the exact precedence
explicit structured target, then legacy ref+element pair, then legacy
non-blank selector; with nothing usable the call yields null when required
is literally false and fails with the target-required error otherwise. -/
theorem C6_target_precedence :
    ∀ (p : ActionParams) (required? : Option Bool),
      (∀ e r, p.target = some (.refTarget e r) →
        resolveActionLocator p required? = .ok (some (.viaRef e r))) ∧
      (∀ s, p.target = some (.selectorTarget s) →
        resolveActionLocator p required? = .ok (some (.viaSelector s))) ∧
      (p.target = none → usingRefB p = true →
        resolveActionLocator p required? =
          .ok (some (.viaRef (p.element.getD "") (p.ref.getD "")))) ∧
      (p.target = none → usingRefB p = false → ∀ s, p.selector = some s →
        (jsTrim s).isEmpty = false →
        resolveActionLocator p required? = .ok (some (.viaSelector s))) ∧
      (p.target = none → usingRefB p = false → usingSelectorB p = false →
        (required? ≠ some false → resolveActionLocator p required? = .error .targetRequired) ∧
        (required? = some false → resolveActionLocator p required? = .ok none)) := by
  intro p required?
  refine ⟨?_, ?_, ?_, ?_, ?_⟩
  · intro e r ht
    simp [resolveActionLocator, ht]
  · intro s ht
    simp [resolveActionLocator, ht]
  · intro ht hr
    have hr2 : (truthyS p.ref && truthyS p.element) = true := hr
    simp [resolveActionLocator, ht, hr2]
  · intro ht hr s hs hblank
    have hr2 : (truthyS p.ref && truthyS p.element) = false := hr
    simp [resolveActionLocator, ht, hr2, hs, hblank]
  · intro ht hr hsel
    have hr2 : (truthyS p.ref && truthyS p.element) = false := hr
    constructor
    · intro hreq
      simp only [usingSelectorB] at hsel
      simp [resolveActionLocator, ht, hr2, hsel, hreq]
    · intro hreq
      simp only [usingSelectorB] at hsel
      simp [resolveActionLocator, ht, hr2, hsel, hreq]

/-- A legacy ref+element parameter bundle, with a selector also present to
exercise the precedence. -/
def paramsLegacyRef : ActionParams :=
  { target := none, element := some "Submit button", ref := some "e12", selector := some "#submit" }

/-- Witness for C6: with no structured target and both legacy ref fields
present, the ref pair wins over the also-present selector. -/
theorem C6_target_precedence_witness :
    paramsLegacyRef.target = none ∧
    usingRefB paramsLegacyRef = true ∧
    resolveActionLocator paramsLegacyRef none = .ok (some (.viaRef "Submit button" "e12")) :=
  ⟨rfl, by decide,
    (C6_target_precedence paramsLegacyRef none).2.2.1 rfl (by decide)⟩

theorem registerPage_headless (inst : BrowserInstance) (raw : Nat) (fid : String) :
    (registerPage inst raw fid).2.headless = inst.headless := by
  unfold registerPage
  cases h : lookupA inst.pageIdByPage raw <;> simp [h]

theorem registerPages_headless :
    ∀ (l : List (Nat × String)) (inst : BrowserInstance),
      (registerPages inst l).headless = inst.headless := by
  intro l
  induction l with
  | nil => intro inst; rfl
  | cons hd tl ih =>
    intro inst
    obtain ⟨raw, fid⟩ := hd
    rw [registerPages, ih, registerPage_headless]

theorem createPersistentInstance_headless (o : SessionOptions) (profileKey : String)
    (orc : LaunchOracle) (tmpdir : String) :
    (createPersistentInstance o profileKey orc tmpdir).headless = o.headless := by
  unfold createPersistentInstance
  by_cases h : orc.ctxPages.isEmpty <;>
    simp [h, registerPage_headless, registerPages_headless, mkEmptyInstance]

theorem createEphemeralInstance_headless (o : SessionOptions) (orc : LaunchOracle) :
    (createEphemeralInstance o orc).headless = o.headless := by
  unfold createEphemeralInstance
  simp [registerPage_headless, mkEmptyInstance]

/-- C2: getOrCreate is an idempotent get-or-create. First conjunct: a call
whose resolved id is live never modifies the registry, whatever the
requested headless flag (no second context is ever opened for an existing
id). Second: with an agreeing headless flag such a call returns the very
same live instance with `wasReused = true` and zero contexts opened. Third:
profile names with equal sanitizations resolve to the same session id.
Fourth: a successful call reports `wasReused = false` exactly when the id
was absent (the creating call, which opens one context and registers the
instance), and `wasReused = true` only with zero contexts opened and the
registry unchanged. -/
theorem C2_get_or_create_idempotent :
    (∀ (reg : Registry) (o : SessionOptions) (orc : LaunchOracle) (tmpdir : String)
       (inst : BrowserInstance),
       lookupA reg (resolveBrowserId o orc.isolatedId) = some inst →
       (getOrCreateSession reg o orc tmpdir).1 = reg) ∧
    (∀ (reg : Registry) (o : SessionOptions) (orc : LaunchOracle) (tmpdir : String)
       (inst : BrowserInstance),
       lookupA reg (resolveBrowserId o orc.isolatedId) = some inst →
       inst.headless = o.headless →
       getOrCreateSession reg o orc tmpdir =
         (reg, .ok (resolveBrowserId o orc.isolatedId, inst, true, 0))) ∧
    (∀ (p1 p2 : String) (h1 h2 : Bool) (a1 a2 : List String) (id1 id2 : String),
       sanitizeProfileName p1 = sanitizeProfileName p2 →
       resolveBrowserId { browserId := none, profile := p1, isolated := false,
                          headless := h1, launchArgs := a1 } id1 =
         resolveBrowserId { browserId := none, profile := p2, isolated := false,
                            headless := h2, launchArgs := a2 } id2) ∧
    (∀ (reg reg1 : Registry) (o : SessionOptions) (orc : LaunchOracle) (tmpdir : String)
       (bid : String) (inst : BrowserInstance) (wasReused : Bool) (n : Nat),
       getOrCreateSession reg o orc tmpdir = (reg1, .ok (bid, inst, wasReused, n)) →
       (wasReused = false →
         lookupA reg bid = none ∧ n = 1 ∧ lookupA reg1 bid = some inst) ∧
       (wasReused = true → n = 0 ∧ reg1 = reg)) := by
  refine ⟨?_, ?_, ?_, ?_⟩
  · intro reg o orc tmpdir inst h
    by_cases hh : inst.headless = o.headless <;> simp [getOrCreateSession, h, hh]
  · intro reg o orc tmpdir inst h hh
    simp [getOrCreateSession, h, hh]
  · intro p1 p2 h1 h2 a1 a2 id1 id2 hsan
    simp [resolveBrowserId, requestedBrowserId, profileKeyOf, profileBrowserId, hsan]
  · intro reg reg1 o orc tmpdir bid inst wasReused n hcall
    have hhead :
        (if !o.isolated && (resolveBrowserId o orc.isolatedId).startsWith "profile:" then
          createPersistentInstance o (profileKeyOf o) orc tmpdir
        else createEphemeralInstance o orc).headless = o.headless := by
      by_cases hc : !o.isolated && (resolveBrowserId o orc.isolatedId).startsWith "profile:" <;>
        simp [hc, createPersistentInstance_headless, createEphemeralInstance_headless]
    cases hfound : lookupA reg (resolveBrowserId o orc.isolatedId) with
    | some i =>
      simp only [getOrCreateSession, hfound] at hcall
      by_cases hh : i.headless = o.headless
      · rw [if_neg (by simp [hh])] at hcall
        simp only [Prod.mk.injEq, Except.ok.injEq] at hcall
        obtain ⟨hreg, hbid, hinst, hwr, hn⟩ := hcall
        constructor
        · intro hwf
          exact absurd (hwr.trans hwf) (by simp)
        · intro _
          exact ⟨hn.symm, hreg.symm⟩
      · rw [if_pos (by simp [hh])] at hcall
        simp only [Prod.mk.injEq] at hcall
        exact absurd hcall.2 (by simp)
    | none =>
      simp only [getOrCreateSession, hfound] at hcall
      rw [if_neg (not_ne_iff.mpr hhead)] at hcall
      simp only [Prod.mk.injEq, Except.ok.injEq] at hcall
      obtain ⟨hreg, hbid, hinst, hwr, hn⟩ := hcall
      constructor
      · intro _
        refine ⟨?_, hn.symm, ?_⟩
        · rw [← hbid]
          exact hfound
        · rw [← hreg, ← hbid, ← hinst]
          exact lookupA_insertA_self _ _ _
      · intro hwt
        exact absurd (hwr.trans hwt) (by simp)

/-- Witness for C2: re-requesting the live default-profile session with the
matching headless flag returns the same instance with `wasReused = true`,
and two raw profile names that sanitize alike resolve to the same id. -/
theorem C2_get_or_create_idempotent_witness :
    lookupA [("profile:default", instTwoPages)]
        (resolveBrowserId (optsDefault false) orcSample.isolatedId) = some instTwoPages ∧
    instTwoPages.headless = (optsDefault false).headless ∧
    getOrCreateSession [("profile:default", instTwoPages)] (optsDefault false) orcSample "/tmp" =
      ([("profile:default", instTwoPages)],
       .ok (resolveBrowserId (optsDefault false) orcSample.isolatedId, instTwoPages, true, 0)) ∧
    sanitizeProfileName "acct a" = sanitizeProfileName " acct?a " ∧
    resolveBrowserId { browserId := none, profile := "acct a", isolated := false,
                       headless := true, launchArgs := [] } "i1" =
      resolveBrowserId { browserId := none, profile := " acct?a ", isolated := false,
                         headless := false, launchArgs := [] } "i2" :=
  ⟨by decide, by decide,
    C2_get_or_create_idempotent.2.1 [("profile:default", instTwoPages)] (optsDefault false)
      orcSample "/tmp" instTwoPages (by decide) (by decide),
    by decide,
    C2_get_or_create_idempotent.2.2.1 "acct a" " acct?a " true false [] [] "i1" "i2" (by decide)⟩

/-- C7: tracing is single-shot per session. Start fails with
session-not-found for an unknown session and with an already-started error
when a trace is recording, and otherwise reserves a path under the traces
root and records the ledger entry. Stop fails with session-not-found or
not-started accordingly, and with an entry present it removes the ledger
entry whether or not the flush succeeds — returning the reserved path on
success and the flush error otherwise — so a subsequent start on the same
session succeeds even after a failed flush. -/
theorem C7_tracing_single_shot :
    ∀ (reg : Registry) (ledger : TraceLedger) (bid tmpdir : String)
      (now : Nat) (uuid8 : String) (flushOk : Bool),
      (lookupA reg bid = none →
        startTracingOp reg ledger (some bid) tmpdir now uuid8 = .error (.sessionNotFound bid) ∧
        stopTracingOp reg ledger (some bid) flushOk = (ledger, .error (.sessionNotFound bid))) ∧
      (∀ inst st, lookupA reg bid = some inst → lookupA ledger bid = some st →
        startTracingOp reg ledger (some bid) tmpdir now uuid8 = .error .tracingAlreadyStarted) ∧
      (∀ inst, lookupA reg bid = some inst → lookupA ledger bid = none →
        (∃ rest,
          startTracingOp reg ledger (some bid) tmpdir now uuid8 =
            .ok (TRACES_DIR tmpdir ++ rest,
              insertA ledger bid { zipPath := TRACES_DIR tmpdir ++ rest, startedAt := now })) ∧
        stopTracingOp reg ledger (some bid) flushOk = (ledger, .error .tracingNotStarted)) ∧
      (∀ inst st, lookupA reg bid = some inst → lookupA ledger bid = some st →
        lookupA (stopTracingOp reg ledger (some bid) flushOk).1 bid = none ∧
        (flushOk = true →
          stopTracingOp reg ledger (some bid) flushOk = (eraseA ledger bid, .ok st.zipPath)) ∧
        (flushOk = false →
          stopTracingOp reg ledger (some bid) flushOk =
            (eraseA ledger bid, .error .traceFlushFailed)) ∧
        ∃ out, startTracingOp reg (stopTracingOp reg ledger (some bid) flushOk).1 (some bid)
            tmpdir now uuid8 = .ok out) := by
  intro reg ledger bid tmpdir now uuid8 flushOk
  refine ⟨?_, ?_, ?_, ?_⟩
  · intro h
    constructor
    · simp [startTracingOp, h]
    · simp [stopTracingOp, h]
  · intro inst st hr hl
    simp [startTracingOp, hr, hl]
  · intro inst hr hl
    constructor
    · refine ⟨"/trace-" ++ toString now ++ "-" ++ uuid8 ++ ".zip", ?_⟩
      simp [startTracingOp, hr, hl, String.append_assoc]
    · simp [stopTracingOp, hr, hl]
  · intro inst st hr hl
    have hstop1 : (stopTracingOp reg ledger (some bid) flushOk).1 = eraseA ledger bid := by
      cases flushOk <;> simp [stopTracingOp, hr, hl]
    refine ⟨?_, ?_, ?_, ?_⟩
    · rw [hstop1]
      exact lookupA_eraseA_self _ _
    · intro hf
      subst hf
      simp [stopTracingOp, hr, hl]
    · intro hf
      subst hf
      simp [stopTracingOp, hr, hl]
    · refine ⟨(TRACES_DIR tmpdir ++ "/trace-" ++ toString now ++ "-" ++ uuid8 ++ ".zip",
        insertA (eraseA ledger bid) bid
          { zipPath := TRACES_DIR tmpdir ++ "/trace-" ++ toString now ++ "-" ++ uuid8 ++ ".zip",
            startedAt := now }), ?_⟩
      rw [hstop1]
      simp [startTracingOp, hr, lookupA_eraseA_self]

/-- A concrete tracing-ledger entry used by concrete witnesses. -/
def traceStateSample : TraceState :=
  { zipPath := "/tmp/patchright-mcp/traces/t.zip", startedAt := 5 }

/-- A concrete one-session registry used by concrete witnesses. -/
def regSample : Registry := [("profile:default", instTwoPages)]

/-- A concrete tracing ledger used by concrete witnesses. -/
def ledgerSample : TraceLedger := [("profile:default", traceStateSample)]

/-- Witness for C7: on a registry holding the default-profile session with a
recorded trace, stop with a failing flush still clears the ledger and a
second start succeeds. -/
theorem C7_tracing_single_shot_witness :
    lookupA regSample "profile:default" = some instTwoPages ∧
    lookupA ledgerSample "profile:default" = some traceStateSample ∧
    lookupA (stopTracingOp regSample ledgerSample
        (some "profile:default") false).1 "profile:default" = none ∧
    ∃ out, startTracingOp regSample
        (stopTracingOp regSample ledgerSample (some "profile:default") false).1
        (some "profile:default") "/tmp" 9 "abcd1234" = .ok out := by
  have h := C7_tracing_single_shot regSample ledgerSample
    "profile:default" "/tmp" 9 "abcd1234" false
  have h2 := h.2.2.2 instTwoPages traceStateSample (by decide) (by decide)
  exact ⟨by decide, by decide, h2.1, h2.2.2.2⟩

/-- C8: with flags profiles=true, downloads=false, traces=false,
closeSessions=true, cleanup closes every live session whatever the
per-session close-failure oracle says, clears the tracing ledger, leaves the
downloads and traces directories untouched, and — per category — empties the
profiles directory and reports success when its removal succeeds, or keeps
it and reports the failure line when it throws, without aborting the rest. -/
theorem C8_cleanup_scoped :
    ∀ (reg : Registry) (ledger : TraceLedger) (dirs : ArtifactDirs)
      (closeFail : String → Bool) (rmP : Option String) (tmpdir : String),
      (cleanupOp reg ledger dirs
        { profiles := true, downloads := false, traces := false, closeBrowsers := true }
        closeFail rmP none none tmpdir).1 = [] ∧
      (cleanupOp reg ledger dirs
        { profiles := true, downloads := false, traces := false, closeBrowsers := true }
        closeFail rmP none none tmpdir).2.1 = [] ∧
      (cleanupOp reg ledger dirs
        { profiles := true, downloads := false, traces := false, closeBrowsers := true }
        closeFail rmP none none tmpdir).2.2.1.downloads = dirs.downloads ∧
      (cleanupOp reg ledger dirs
        { profiles := true, downloads := false, traces := false, closeBrowsers := true }
        closeFail rmP none none tmpdir).2.2.1.traces = dirs.traces ∧
      (rmP = none →
        (cleanupOp reg ledger dirs
          { profiles := true, downloads := false, traces := false, closeBrowsers := true }
          closeFail rmP none none tmpdir).2.2.1.profiles = [] ∧
        (cleanupOp reg ledger dirs
          { profiles := true, downloads := false, traces := false, closeBrowsers := true }
          closeFail rmP none none tmpdir).2.2.2 =
          ["Closed browsers: " ++ toString reg.length,
           "Profiles cleaned: " ++ PROFILES_DIR tmpdir]) ∧
      (∀ e, rmP = some e →
        (cleanupOp reg ledger dirs
          { profiles := true, downloads := false, traces := false, closeBrowsers := true }
          closeFail rmP none none tmpdir).2.2.1.profiles = dirs.profiles ∧
        (cleanupOp reg ledger dirs
          { profiles := true, downloads := false, traces := false, closeBrowsers := true }
          closeFail rmP none none tmpdir).2.2.2 =
          ["Closed browsers: " ++ toString reg.length,
           "Profiles cleanup failed: " ++ e]) := by
  intro reg ledger dirs closeFail rmP tmpdir
  refine ⟨?_, ?_, ?_, ?_, ?_, ?_⟩
  · cases rmP <;> simp [cleanupOp]
  · cases rmP <;> simp [cleanupOp]
  · cases rmP <;> simp [cleanupOp]
  · cases rmP <;> simp [cleanupOp]
  · intro h
    subst h
    constructor <;> simp [cleanupOp]
  · intro e h
    subst h
    constructor <;> simp [cleanupOp]

/-- A concrete artifact-directory state used by concrete witnesses. -/
def dirsSample : ArtifactDirs :=
  { profiles := ["prof1"], downloads := ["d1"], traces := ["t1"] }

/-- Witness for C8: concrete cleanup of a one-session registry with a failing
profiles removal keeps the profiles directory and reports the failure. -/
theorem C8_cleanup_scoped_witness :
    ((some "disk busy" : Option String) = some "disk busy") ∧
    (cleanupOp regSample ledgerSample dirsSample
        { profiles := true, downloads := false, traces := false, closeBrowsers := true }
        (fun _ => true) (some "disk busy") none none "/tmp").2.2.1.profiles = ["prof1"] ∧
    (cleanupOp regSample ledgerSample dirsSample
        { profiles := true, downloads := false, traces := false, closeBrowsers := true }
        (fun _ => true) (some "disk busy") none none "/tmp").2.2.2 =
      ["Closed browsers: 1", "Profiles cleanup failed: disk busy"] := by
  have h := (C8_cleanup_scoped regSample ledgerSample dirsSample
    (fun _ => true) (some "disk busy") "/tmp").2.2.2.2.2 "disk busy" rfl
  exact ⟨rfl, h.1, by rw [h.2]; rfl⟩

/-- C9: reading a page's console or network buffer with clear=true empties
the entire stored buffer: the returned items are the most recent `limit` of
the (for network: filtered) buffer, yet the buffer entry is reset to `[]`,
so entries beyond the limit or excluded by the include/urlContains filter are
lost rather than retained for a later read. -/
theorem C9_clear_discards_unreturned :
    ∀ (reg : Registry) (bid pid : String) (inst : BrowserInstance) (raw : Nat)
      (buf : List String) (nbuf : List NetworkEvent) (limit : Int)
      (include0 : IncludeKind) (urlContains? : Option String),
      lookupA reg bid = some inst →
      lookupA inst.pages pid = some raw →
      lookupA inst.consoleMessages pid = some buf →
      lookupA inst.networkEvents pid = some nbuf →
      (∃ reg2,
        consoleMessagesOp reg (some bid) (some pid) limit true =
          .ok (buf.drop (max 0 ((buf.length : Int) - limit)).toNat, reg2) ∧
        ∃ inst2, lookupA reg2 bid = some inst2 ∧
          lookupA inst2.consoleMessages pid = some []) ∧
      (∃ reg2,
        networkRequestsOp reg (some bid) (some pid) limit true include0 urlContains? =
          .ok ((nbuf.filter (networkEventKeep include0 urlContains?)).drop
                (max 0 (((nbuf.filter (networkEventKeep include0 urlContains?)).length : Int) -
                  limit)).toNat, reg2) ∧
        ∃ inst2, lookupA reg2 bid = some inst2 ∧
          lookupA inst2.networkEvents pid = some []) := by
  intro reg bid pid inst raw buf nbuf limit include0 urlContains? hreg hpage hcon hnet
  constructor
  · refine ⟨insertA (insertA reg bid { inst with activePageId := pid }) bid
      { inst with activePageId := pid,
                  consoleMessages := insertA inst.consoleMessages pid [] }, ?_, ?_⟩
    · simp [consoleMessagesOp, getPage, hreg, hpage, hcon]
    · refine ⟨_, lookupA_insertA_self _ _ _, ?_⟩
      exact lookupA_insertA_self _ _ _
  · refine ⟨insertA (insertA reg bid { inst with activePageId := pid }) bid
      { inst with activePageId := pid,
                  networkEvents := insertA inst.networkEvents pid [] }, ?_, ?_⟩
    · simp [networkRequestsOp, getPage, hreg, hpage, hnet]
    · refine ⟨_, lookupA_insertA_self _ _ _, ?_⟩
      exact lookupA_insertA_self _ _ _

/-- Witness for C9: with a three-line console buffer and limit 1, the read
returns only the newest line yet clears all three; with a filter that
matches nothing, the network read returns nothing yet clears the buffer. -/
theorem C9_clear_discards_unreturned_witness :
    lookupA regSample "profile:default" = some instTwoPages ∧
    lookupA instTwoPages.pages "p1" = some 1 ∧
    lookupA { instTwoPages with
        consoleMessages := [("p1", ["l1", "l2", "l3"]), ("p2", ["c2"])] }.pages "p1" = some 1 ∧
    (∃ reg2,
      consoleMessagesOp [("profile:default",
          { instTwoPages with consoleMessages := [("p1", ["l1", "l2", "l3"]), ("p2", ["c2"])] })]
        (some "profile:default") (some "p1") 1 true = .ok (["l3"], reg2) ∧
      ∃ inst2, lookupA reg2 "profile:default" = some inst2 ∧
        lookupA inst2.consoleMessages "p1" = some []) ∧
    (∃ reg2,
      networkRequestsOp regSample (some "profile:default") (some "p1") 100 true
        .both (some "nosuchhost") = .ok ([], reg2) ∧
      ∃ inst2, lookupA reg2 "profile:default" = some inst2 ∧
        lookupA inst2.networkEvents "p1" = some []) := by
  have h := C9_clear_discards_unreturned
    [("profile:default",
      { instTwoPages with consoleMessages := [("p1", ["l1", "l2", "l3"]), ("p2", ["c2"])] })]
    "profile:default" "p1"
    { instTwoPages with consoleMessages := [("p1", ["l1", "l2", "l3"]), ("p2", ["c2"])] }
    1 ["l1", "l2", "l3"] [evSample] 1 .both none (by decide) (by decide) (by decide) (by decide)
  have h2 := C9_clear_discards_unreturned regSample "profile:default" "p1" instTwoPages
    1 ["c1"] [evSample] 100 .both (some "nosuchhost")
    (by decide) (by decide) (by decide) (by decide)
  refine ⟨by decide, by decide, by decide, ?_, ?_⟩
  · simpa using h.1
  · simpa using h2.2

/-- C10: the active-page pointer is mutated as a side effect of registration
and lookup. A first-time registration of a raw page unconditionally makes the
fresh page id active; resolving a page by an explicit pageId sets that page
active in the registry; and a subsequent call that omits the pageId then
returns that same page. -/
theorem C10_active_pointer :
    (∀ (inst : BrowserInstance) (raw : Nat) (fid : String),
       lookupA inst.pageIdByPage raw = none →
       (registerPage inst raw fid).1 = fid ∧
       (registerPage inst raw fid).2.activePageId = fid) ∧
    (∀ (reg : Registry) (bid pid : String) (inst : BrowserInstance) (raw : Nat),
       lookupA reg bid = some inst →
       lookupA inst.pages pid = some raw →
       getPage reg bid (some pid) =
         .ok (pid, raw, { inst with activePageId := pid },
           insertA reg bid { inst with activePageId := pid }) ∧
       getPage (insertA reg bid { inst with activePageId := pid }) bid none =
         .ok (pid, raw, { inst with activePageId := pid },
           insertA reg bid { inst with activePageId := pid })) := by
  constructor
  · intro inst raw fid h
    constructor <;> simp [registerPage, h]
  · intro reg bid pid inst raw hreg hpage
    constructor
    · simp [getPage, hreg, hpage]
    · simp [getPage, lookupA_insertA_self, hpage]

/-- Witness for C10: registering a fresh raw page 3 makes it active, and
explicitly resolving p2 makes p2 active so that an id-less lookup then
returns p2. -/
theorem C10_active_pointer_witness :
    lookupA instTwoPages.pageIdByPage 3 = none ∧
    (registerPage instTwoPages 3 "p3").2.activePageId = "p3" ∧
    lookupA regSample "profile:default" = some instTwoPages ∧
    lookupA instTwoPages.pages "p2" = some 2 ∧
    getPage (insertA regSample "profile:default" { instTwoPages with activePageId := "p2" })
        "profile:default" none =
      .ok ("p2", 2, { instTwoPages with activePageId := "p2" },
        insertA regSample "profile:default" { instTwoPages with activePageId := "p2" }) :=
  ⟨by decide,
    (C10_active_pointer.1 instTwoPages 3 "p3" (by decide)).2,
    by decide, by decide,
    (C10_active_pointer.2 regSample "profile:default" "p2" instTwoPages 2
      (by decide) (by decide)).2⟩

end PatchrightMCP
